import Mathlib

/-!
Shallow embedding of the aws-dax-go-sample command-line tool.

The repository holds two variants of the same tool:
  * `src/try_dax.go`            (referred to below as the `TryDax` variant), and
  * `src/unnamed/part_000`      (referred to below as the `Part000` variant).

Both parse flags (`service`, `region`, `endpoint`, `command`, `verbose`),
validate them, build a DynamoDB or DAX client, and run one of six command
executors (`create-table`, `delete-table`, `put-item`, `get-item`, `query`,
`scan`).  The executors issue fixed sequences of requests against the external
backend and abort on the first error.

Modelling choices:
  * Flag values are plain `String`s.  In Go, `flag.String` never returns a nil
    pointer, so the `p == nil` guards in both `validate` functions are never
    taken; the model elides them.
  * The external backend (DynamoDB / DAX) is modelled as an oracle
    `Nat → α → Except ε Unit`: given the number of calls issued so far and the
    request, it either succeeds or returns an error.  Request outputs are only
    ever passed to `writeVerbose`, so they are collapsed to `Unit`.
  * Wall-clock durations (`time.Since`) are modelled as an `Int` parameter,
    the nanosecond count of Go's `time.Duration` (an int64).  Go's monotonic
    clock makes the elapsed value non-negative, which is recorded as a
    hypothesis where it matters; for non-negative operands Go's truncated
    int64 division agrees with Lean's `Int` division.
-/

namespace DaxSample

/-- The parsed flag values shared by both variants: `-service`, `-command`,
`-endpoint` (the `region` and `verbose` flags play no role in validation or in
request construction and are omitted). -/
structure Config where
  service : String
  command : String
  endpoint : String
deriving DecidableEq, Repr

/-- `var services = []string{"dynamodb", "dax"}` (identical in both files). -/
def services : List String := ["dynamodb", "dax"]

/-- `var commands = []string{...}` of the `Part000` variant. -/
def commands : List String :=
  ["create-table", "put-item", "get-item", "query", "scan", "delete-table"]

/-- Go helper `contains(needle string, haystack []string) bool` (identical in
both files): linear scan comparing each element with the needle. -/
def contains (needle : String) (haystack : List String) : Bool :=
  haystack.any fun v => needle == v

/-- The executors named by the `TryDax` variant's `commandMap`. -/
inductive Command where
  | createTable
  | deleteTable
  | putItem
  | getItem
  | queryCmd
  | scanCmd
deriving DecidableEq, Repr

/-- `var commandMap = map[string]func() error{...}` of the `TryDax` variant,
as an association list in the order the map literal lists its keys. -/
def commandMap : List (String × Command) :=
  [("create-table", Command.createTable),
   ("delete-table", Command.deleteTable),
   ("put-item", Command.putItem),
   ("get-item", Command.getItem),
   ("query", Command.queryCmd),
   ("scan", Command.scanCmd)]

/-- `var commandsMsg = strings.Join(listOfKeys(commandMap), " | ")` of the
`TryDax` variant.  Go map iteration order is unspecified; the model fixes the
order in which the source's map literal lists the keys. -/
def commandsMsg : String := String.intercalate " | " (commandMap.map Prod.fst)

/-- Error message for an unknown service (identical text in both variants). -/
def msgService : String :=
  "service should be one of [" ++ String.intercalate " | " services ++ "]"

/-- Error message for an unknown command in the `Part000` variant. -/
def msgCommandPart000 : String :=
  "command should be one of [" ++ String.intercalate " | " commands ++ "]"

/-- Error message for an unknown command in the `TryDax` variant. -/
def msgCommandTryDax : String :=
  "command should be one of [" ++ commandsMsg ++ "]"

/-- Error message for a missing endpoint (identical text in both variants). -/
def msgEndpoint : String := "endpoint should be set for 'dax' service"

/-- Error message of the `Part000` variant for a table-management command on
the dax service. -/
def msgTableOps : String :=
  "service 'dax' does not support table operations, use service 'dynamodb'"

/-- `validate()` of the `Part000` variant (`src/unnamed/part_000`, lines
223-239): rejects an unknown service, an unknown command, dax with an empty
endpoint, and dax with a table-management command, in that order.  Returns
the error message, or `none` for nil. -/
def validatePart000 (c : Config) : Option String :=
  if !contains c.service services then
    some msgService
  else if !contains c.command commands then
    some msgCommandPart000
  else if c.service == "dax" then
    if c.endpoint.length == 0 then
      some msgEndpoint
    else if c.command == "create-table" || c.command == "delete-table" then
      some msgTableOps
    else
      none
  else
    none

/-- `validate()` of the `TryDax` variant (`src/try_dax.go`, lines 293-306):
rejects an unknown service, a command that is not a key of `commandMap`, and
dax with an empty endpoint.  It has no check for table-management commands on
the dax service. -/
def validateTryDax (c : Config) : Option String :=
  if !contains c.service services then
    some msgService
  else if (commandMap.lookup c.command).isNone then
    some msgCommandTryDax
  else if c.service == "dax" then
    if c.endpoint.length == 0 then
      some msgEndpoint
    else
      none
  else
    none

/-! ### Request payloads

The request structures mirror the fields of `dynamodb.*Input` that the two
source files actually set.  Go maps of attribute values are modelled as
association lists in the order the source's map literals list their keys. -/

/-- `dynamodb.AttributeValue` restricted to the fields the tool sets: the
string field `S` or the numeric-string field `N`. -/
structure AttributeValue where
  S : Option String := none
  N : Option String := none
deriving DecidableEq, Repr

/-- `const table = "TryDaxGoTable"` (identical in both files). -/
def table : String := "TryDaxGoTable"

/-- `const keyPrefix = "key"` (identical in both files). -/
def keyPrefix : String := "key"

/-- `const valPrefix = "val"` (identical in both files). -/
def valPrefix : String := "val"

/-- `const pkMax = 10` (identical in both files). -/
def pkMax : Nat := 10

/-- `const skMax = 10` (identical in both files). -/
def skMax : Nat := 10

/-- `const iterations = 25` (identical in both files). -/
def iterations : Nat := 25

/-- `dynamodb.PutItemInput` as built by `executePutItem`. -/
structure PutItemInput where
  tableName : String
  item : List (String × AttributeValue)
deriving DecidableEq, Repr

/-- `dynamodb.GetItemInput` as built by `executeGetItem`. -/
structure GetItemInput where
  tableName : String
  key : List (String × AttributeValue)
deriving DecidableEq, Repr

/-- `dynamodb.QueryInput` as built by `executeQuery`. -/
structure QueryInput where
  tableName : String
  keyConditionExpression : String
  expressionAttributeValues : List (String × AttributeValue)
deriving DecidableEq, Repr

/-- `dynamodb.ScanInput` as built by `executeScan`. -/
structure ScanInput where
  tableName : String
deriving DecidableEq, Repr

/-- `dynamodb.CreateTableInput` restricted to the fields `executeCreateTable`
sets.  Key schema and attribute definitions are (attribute name, type) pairs;
the SDK constants are the strings `"HASH"`, `"RANGE"`, `"S"`, `"N"`. -/
structure CreateTableInput where
  tableName : String
  keySchema : List (String × String)
  attributeDefinitions : List (String × String)
  readCapacityUnits : Int
  writeCapacityUnits : Int
deriving DecidableEq, Repr

/-- `dynamodb.DeleteTableInput` as built by `executeDeleteTable`. -/
structure DeleteTableInput where
  tableName : String
deriving DecidableEq, Repr

/-! ### The executor loops

Every item executor of both variants is the same pattern: iterate over a
fixed sequence of requests, call the client once per request, and `return err`
on the first failure (abandoning the rest of the sequence).  `runLoop` is that
pattern: it feeds requests to the oracle `client` one at a time, threading the
count of calls already issued, and returns the list of requests actually
issued together with the final result. -/

/-- Runs the body of an executor loop: issue each request in `inputs` in turn
(the oracle also receives the index of the call, `start` for the first), stop
at the first error.  Returns the requests issued and the executor's result. -/
def runLoop {α ε : Type} (client : Nat → α → Except ε Unit) :
    List α → Nat → List α × Except ε Unit
  | [], _ => ([], Except.ok ())
  | x :: xs, k =>
    match client k x with
    | Except.error e => ([x], Except.error e)
    | Except.ok () =>
      let r := runLoop client xs (k + 1)
      (x :: r.1, r.2)

/-- The item written for grid point `(i, j)`:
`{"pk": {S: "key_<i>"}, "sk": {N: "<j>"}, "value": {S: "val_<i>_<j>"}}`. -/
def putItem (i j : Nat) : List (String × AttributeValue) :=
  [("pk", { S := some (keyPrefix ++ "_" ++ toString i) }),
   ("sk", { N := some (toString j) }),
   ("value", { S := some (valPrefix ++ "_" ++ toString i ++ "_" ++ toString j) })]

/-- The key read for grid point `(i, j)`:
`{"pk": {S: "key_<i>"}, "sk": {N: "<j>"}}`. -/
def getKey (i j : Nat) : List (String × AttributeValue) :=
  [("pk", { S := some (keyPrefix ++ "_" ++ toString i) }),
   ("sk", { N := some (toString j) })]

/-- The sequence of `PutItemInput`s built by `executePutItem`'s nested loops
`for i < pkMax, for j < skMax` (identical in both files). -/
def putItemInputs : List PutItemInput :=
  (List.range pkMax).flatMap fun i =>
    (List.range skMax).map fun j =>
      { tableName := table, item := putItem i j }

/-- The sequence of `GetItemInput`s built by `executeGetItem`'s loops
`for c < iterations, for i < pkMax, for j < skMax` (identical in both files). -/
def getItemInputs : List GetItemInput :=
  (List.range iterations).flatMap fun _ =>
    (List.range pkMax).flatMap fun i =>
      (List.range skMax).map fun j =>
        { tableName := table, key := getKey i j }

/-- The `QueryInput` built on every iteration of `executeQuery` (identical in
both files): partition key `key_5`, sort key between `2` and `9`. -/
def queryInput : QueryInput :=
  { tableName := table,
    keyConditionExpression := "pk = :pkval and sk between :skval1 and :skval2",
    expressionAttributeValues :=
      [(":pkval", { S := some (keyPrefix ++ "_" ++ toString 5) }),
       (":skval1", { N := some (toString 2) }),
       (":skval2", { N := some (toString 9) })] }

/-- The sequence of `QueryInput`s built by `executeQuery`'s loop
`for c < iterations`. -/
def queryInputs : List QueryInput :=
  (List.range iterations).map fun _ => queryInput

/-- The sequence of `ScanInput`s built by `executeScan`'s loop
`for c < iterations`. -/
def scanInputs : List ScanInput :=
  (List.range iterations).map fun _ => { tableName := table }

/-- The `CreateTableInput` built by `executeCreateTable` (identical in both
files): hash key `pk` of string type, range key `sk` of numeric type,
100 read / 100 write capacity units. -/
def createTableInput : CreateTableInput :=
  { tableName := table,
    keySchema := [("pk", "HASH"), ("sk", "RANGE")],
    attributeDefinitions := [("pk", "S"), ("sk", "N")],
    readCapacityUnits := 100,
    writeCapacityUnits := 100 }

/-- `executePutItem`'s loop body (identical in both files): one `PutItem` call
per grid point, aborting on the first error. -/
def executePutItem {ε : Type} (client : Nat → PutItemInput → Except ε Unit) :
    List PutItemInput × Except ε Unit :=
  runLoop client putItemInputs 0

/-- `executeGetItem`'s loop body (identical in both files): one `GetItem` call
per grid point per iteration, aborting on the first error. -/
def executeGetItem {ε : Type} (client : Nat → GetItemInput → Except ε Unit) :
    List GetItemInput × Except ε Unit :=
  runLoop client getItemInputs 0

/-- `executeQuery`'s loop body (identical in both files): one `Query` call per
iteration, aborting on the first error. -/
def executeQuery {ε : Type} (client : Nat → QueryInput → Except ε Unit) :
    List QueryInput × Except ε Unit :=
  runLoop client queryInputs 0

/-- `executeScan`'s loop body (identical in both files): one `Scan` call per
iteration, aborting on the first error. -/
def executeScan {ε : Type} (client : Nat → ScanInput → Except ε Unit) :
    List ScanInput × Except ε Unit :=
  runLoop client scanInputs 0

/-- The average reported by `executeGetItem`, `executeQuery` and
`executeScan`: `d / iterations` on Go's `time.Duration` (int64 nanoseconds),
modelled on `Int`.  For the non-negative durations the monotonic clock
produces, Go's truncated division agrees with this one. -/
def avgTime (d : Int) : Int := d / (iterations : Int)

/-- `executeCreateTable`'s body once a client is in hand (identical request in
both files): issue the one `CreateTable` call, surfacing its error. -/
def executeCreateTable {ε : Type} (client : CreateTableInput → Except ε Unit) :
    List CreateTableInput × Except ε Unit :=
  match client createTableInput with
  | Except.error e => ([createTableInput], Except.error e)
  | Except.ok () => ([createTableInput], Except.ok ())

/-- `initTableClient` of the `TryDax` variant (`src/try_dax.go`, lines
262-267): service `dax` is rejected outright with a fixed error; any other
service builds a DynamoDB client via `ddbClient`, whose session construction
is external and modelled by the `ddbErr` parameter. -/
def initTableClient (service : String) (ddbErr : Option String) :
    Except String Unit :=
  if service == "dax" then
    Except.error "for table operations use service 'dynamodb'"
  else
    match ddbErr with
    | some e => Except.error e
    | none => Except.ok ()

/-- `executeCreateTable` of the `TryDax` variant: first `initTableClient`
(returning its error without issuing any request), then the shared
create-table body. -/
def executeCreateTableTryDax (service : String) (ddbErr : Option String)
    (client : CreateTableInput → Except String Unit) :
    List CreateTableInput × Except String Unit :=
  match initTableClient service ddbErr with
  | Except.error e => ([], Except.error e)
  | Except.ok () => executeCreateTable client

/-! ### The two `main` functions

Each model returns the diagnostic lines written to stderr and the process
exit status.  External effects (session construction, EC2 region detection,
the dispatched executor) are parameters: `some e` means the step failed with
error `e`. -/

/-- `main` of the `Part000` variant (`src/unnamed/part_000`, lines 37-53).
On a validation, client-initialization or execution failure it writes a
diagnostic to stderr and then *returns from `main`*, so the Go process
terminates with exit status 0 on every path. -/
def mainPart000 (cfg : Config) (initErr execErr : Option String) :
    List String × Nat :=
  match validatePart000 cfg with
  | some e => (["invalid input: " ++ e], 0)
  | none =>
    match initErr with
    | some e => (["failed to init client: " ++ e], 0)
    | none =>
      match execErr with
      | some e => (["failed to execute command: " ++ e], 0)
      | none => ([], 0)

/-- `main` of the `TryDax` variant (`src/try_dax.go`, lines 66-75) together
with `initializeOptions` (lines 77-100): a session error, a region-detection
error or a validation failure writes a diagnostic and exits with status 1;
an executor error writes a diagnostic and exits with status 1; otherwise the
process exits with status 0. -/
def mainTryDax (cfg : Config) (sessionErr regionErr execErr : Option String) :
    List String × Nat :=
  match sessionErr with
  | some e => ([e], 1)
  | none =>
    match regionErr with
    | some e => (["Unable to detect region: " ++ e], 1)
    | none =>
      match validateTryDax cfg with
      | some e => (["invalid input: " ++ e], 1)
      | none =>
        match execErr with
        | some e => (["failed to execute command: " ++ e], 1)
        | none => ([], 0)

/-! ### Loop lemmas -/

/-- If every call succeeds, an executor loop issues its whole request
sequence and returns success. -/
lemma runLoop_all_ok {α ε : Type} (client : Nat → α → Except ε Unit)
    (h : ∀ k x, client k x = Except.ok ()) :
    ∀ (inputs : List α) (s : Nat),
      runLoop client inputs s = (inputs, Except.ok ()) := by
  intro inputs
  induction inputs with
  | nil => intro s; rfl
  | cons x xs ih =>
    intro s
    simp [runLoop, h s x, ih (s + 1)]

/-- If the client succeeds on every call before the `n`-th and fails on the
`n`-th with `e`, an executor loop long enough to reach it issues exactly the
first `n - s` of its remaining requests and returns `e`. -/
lemma runLoop_first_error {α ε : Type} (client : Nat → α → Except ε Unit)
    (e : ε) (n : Nat)
    (hok : ∀ k x, k + 1 < n → client k x = Except.ok ())
    (herr : ∀ x, client (n - 1) x = Except.error e) :
    ∀ (inputs : List α) (s : Nat), s < n → n ≤ s + inputs.length →
      runLoop client inputs s = (inputs.take (n - s), Except.error e) := by
  intro inputs
  induction inputs with
  | nil =>
    intro s hs hn
    simp only [List.length_nil, Nat.add_zero] at hn
    omega
  | cons x xs ih =>
    intro s hs hn
    simp only [List.length_cons] at hn
    by_cases hsn : s + 1 = n
    · have hs' : s = n - 1 := by omega
      have hcx : client s x = Except.error e := by rw [hs']; exact herr x
      have hns : n - s = 1 := by omega
      simp [runLoop, hcx, hns]
    · have h1 : s + 1 < n := by omega
      have hcx : client s x = Except.ok () := hok s x h1
      have ih' := ih (s + 1) h1 (by omega)
      have hm : n - s = (n - (s + 1)) + 1 := by omega
      simp only [runLoop, hcx, ih']
      rw [hm, List.take_succ_cons]

/-- `executePutItem`'s request sequence has 100 elements. -/
lemma putItemInputs_length : putItemInputs.length = 100 := by decide

/-- One pass of `executeGetItem`'s grid has 100 elements. -/
lemma getItem_grid_length :
    ((List.range pkMax).flatMap fun i =>
      List.map (fun j => ({ tableName := table, key := getKey i j } : GetItemInput))
        (List.range skMax)).length = 100 := by decide

/-- `executeGetItem`'s request sequence has 2500 elements. -/
lemma getItemInputs_length : getItemInputs.length = 2500 := by
  rw [getItemInputs, List.length_flatMap]
  have h : (List.length ∘ fun _ : Nat =>
      (List.range pkMax).flatMap fun i =>
        List.map (fun j => ({ tableName := table, key := getKey i j } : GetItemInput))
          (List.range skMax)) = fun _ : Nat => 100 := by
    funext x
    exact getItem_grid_length
  rw [h]
  decide

/-- `executeQuery`'s request sequence has 25 elements. -/
lemma queryInputs_length : queryInputs.length = 25 := by decide

/-- `executeScan`'s request sequence has 25 elements. -/
lemma scanInputs_length : scanInputs.length = 25 := by decide

/-! ### Validation lemmas -/

/-- `"dax"` is a known service. -/
lemma contains_dax_services : contains "dax" services = true := by decide

/-- `"create-table"` is a known command of the `Part000` variant. -/
lemma contains_createTable_commands :
    contains "create-table" commands = true := by decide

/-- `"delete-table"` is a known command of the `Part000` variant. -/
lemma contains_deleteTable_commands :
    contains "delete-table" commands = true := by decide

/-- An unknown service is rejected by the `Part000` variant's `validate` with
the service message, whatever the other flags hold. -/
lemma validatePart000_bad_service (cfg : Config)
    (hs : contains cfg.service services = false) :
    validatePart000 cfg = some msgService := by
  simp [validatePart000, hs]

/-- An unknown service is rejected by the `TryDax` variant's `validate` with
the service message, whatever the other flags hold. -/
lemma validateTryDax_bad_service (cfg : Config)
    (hs : contains cfg.service services = false) :
    validateTryDax cfg = some msgService := by
  simp [validateTryDax, hs]

/-- A known service with an unknown command is rejected by the `Part000`
variant's `validate` with its command message. -/
lemma validatePart000_bad_command (cfg : Config)
    (hs : contains cfg.service services = true)
    (hc : contains cfg.command commands = false) :
    validatePart000 cfg = some msgCommandPart000 := by
  simp [validatePart000, hs, hc]

/-- A known service with a command that is not a `commandMap` key is rejected
by the `TryDax` variant's `validate` with its command message. -/
lemma validateTryDax_bad_command (cfg : Config)
    (hs : contains cfg.service services = true)
    (hc : commandMap.lookup cfg.command = none) :
    validateTryDax cfg = some msgCommandTryDax := by
  simp [validateTryDax, hs, hc]

/-- The dax service with a known command and an empty endpoint is rejected by
the `Part000` variant's `validate` with the endpoint message. -/
lemma validatePart000_dax_no_endpoint (cfg : Config)
    (hs : cfg.service = "dax")
    (hc : contains cfg.command commands = true)
    (he : cfg.endpoint.length = 0) :
    validatePart000 cfg = some msgEndpoint := by
  simp [validatePart000, hs, hc, he, contains_dax_services]

/-- The dax service with a `commandMap` command and an empty endpoint is
rejected by the `TryDax` variant's `validate` with the endpoint message. -/
lemma validateTryDax_dax_no_endpoint (cfg : Config)
    (hs : cfg.service = "dax")
    (hc : (commandMap.lookup cfg.command).isSome = true)
    (he : cfg.endpoint.length = 0) :
    validateTryDax cfg = some msgEndpoint := by
  have hc' : (commandMap.lookup cfg.command).isNone = false := by
    cases h : commandMap.lookup cfg.command with
    | none => rw [h] at hc; simp at hc
    | some c => rfl
  simp [validateTryDax, hs, hc', he, contains_dax_services]

/-- The dax service with a table-management command and a nonempty endpoint is
rejected by the `Part000` variant's `validate` with the table-ops message. -/
lemma validatePart000_dax_table_command (cfg : Config)
    (hs : cfg.service = "dax")
    (hc : cfg.command = "create-table" ∨ cfg.command = "delete-table")
    (he : cfg.endpoint.length ≠ 0) :
    validatePart000 cfg = some msgTableOps := by
  rcases hc with hc | hc <;>
    simp [validatePart000, hs, hc, he, contains_dax_services,
      contains_createTable_commands, contains_deleteTable_commands]

/-- Whatever the client answers, `executeCreateTable` only ever issues the
one fixed request. -/
lemma mem_executeCreateTable_trace {ε : Type}
    (client : CreateTableInput → Except ε Unit) (r : CreateTableInput)
    (hr : r ∈ (executeCreateTable client).1) : r = createTableInput := by
  cases h : client createTableInput <;>
    simp [executeCreateTable, h] at hr <;> exact hr

/-- The fixed create-table request carries the composite key schema and the
100/100 provisioned throughput. -/
lemma createTableInput_fields :
    createTableInput.keySchema = [("pk", "HASH"), ("sk", "RANGE")] ∧
    createTableInput.attributeDefinitions = [("pk", "S"), ("sk", "N")] ∧
    createTableInput.readCapacityUnits = 100 ∧
    createTableInput.writeCapacityUnits = 100 := by
  refine ⟨rfl, rfl, rfl, rfl⟩

/-- The fixed query request carries partition key `key_5` and sort-key bounds
`2` and `9`. -/
lemma queryInput_fields :
    queryInput.keyConditionExpression =
      "pk = :pkval and sk between :skval1 and :skval2" ∧
    queryInput.expressionAttributeValues =
      [(":pkval", { S := some "key_5" }),
       (":skval1", { N := some "2" }),
       (":skval2", { N := some "9" })] := by
  refine ⟨rfl, by decide⟩

/-- `executeGetItem`'s request sequence is the 100-key grid repeated 25
times. -/
lemma getItemInputs_replicate :
    getItemInputs =
      (List.replicate iterations ((List.range pkMax).flatMap fun i =>
        (List.range skMax).map fun j =>
          ({ tableName := table, key := getKey i j } : GetItemInput))).flatten := by
  rw [getItemInputs,
    show ((List.range iterations).flatMap fun _ =>
        (List.range pkMax).flatMap fun i =>
          (List.range skMax).map fun j =>
            ({ tableName := table, key := getKey i j } : GetItemInput)) =
      ((List.range iterations).map fun _ =>
        (List.range pkMax).flatMap fun i =>
          (List.range skMax).map fun j =>
            ({ tableName := table, key := getKey i j } : GetItemInput)).flatten
      from rfl]
  rw [show ((List.range iterations).map fun _ =>
        (List.range pkMax).flatMap fun i =>
          (List.range skMax).map fun j =>
            ({ tableName := table, key := getKey i j } : GetItemInput)) =
      List.replicate (List.range iterations).length
        ((List.range pkMax).flatMap fun i =>
          (List.range skMax).map fun j =>
            ({ tableName := table, key := getKey i j } : GetItemInput))
      from List.map_const' _ _]
  rw [List.length_range]

/-! ### Claim theorems -/

/-- C1 (corrected, counterexample): on an invalid service string, `main` of
the `Part000` variant writes the diagnostic to stderr but terminates the
process with exit status 0, not a non-zero status as claimed. -/
theorem part000_failure_exits_zero :
    mainPart000 ⟨"s3", "get-item", ""⟩ none none =
      (["invalid input: " ++ msgService], 0) := by decide

/-- C1 (amended): in the `TryDax` variant the process exits 0 exactly when
session construction, region detection, validation and the dispatched
executor all succeed, and any non-zero exit comes with a diagnostic on
stderr; in the `Part000` variant every run exits with status 0, and any
validation, client-initialization or execution failure writes a diagnostic
to stderr. -/
theorem exit_status_by_variant :
    (∀ (cfg : Config) (sessionErr regionErr execErr : Option String),
      ((mainTryDax cfg sessionErr regionErr execErr).2 = 0 ↔
        (sessionErr = none ∧ regionErr = none ∧
          validateTryDax cfg = none ∧ execErr = none)) ∧
      ((mainTryDax cfg sessionErr regionErr execErr).2 ≠ 0 →
        (mainTryDax cfg sessionErr regionErr execErr).1 ≠ [])) ∧
    (∀ (cfg : Config) (initErr execErr : Option String),
      (mainPart000 cfg initErr execErr).2 = 0 ∧
      ((validatePart000 cfg ≠ none ∨ initErr ≠ none ∨ execErr ≠ none) →
        (mainPart000 cfg initErr execErr).1 ≠ [])) := by
  constructor
  · intro cfg sessionErr regionErr execErr
    cases sessionErr with
    | some e => simp [mainTryDax]
    | none =>
      cases regionErr with
      | some e => simp [mainTryDax]
      | none =>
        cases hv : validateTryDax cfg with
        | some e => simp [mainTryDax, hv]
        | none =>
          cases execErr with
          | some e => simp [mainTryDax, hv]
          | none => simp [mainTryDax, hv]
  · intro cfg initErr execErr
    cases hv : validatePart000 cfg with
    | some e => simp [mainPart000, hv]
    | none =>
      cases initErr with
      | some e => simp [mainPart000, hv]
      | none =>
        cases execErr with
        | some e => simp [mainPart000, hv]
        | none => simp [mainPart000, hv]

/-- C1 witness: a concrete failing `Part000` run exits 0 yet writes a
diagnostic. -/
theorem exit_status_by_variant_witness :
    (mainPart000 ⟨"s3", "get-item", ""⟩ none none).2 = 0 ∧
    (mainPart000 ⟨"s3", "get-item", ""⟩ none none).1 ≠ [] :=
  ⟨(exit_status_by_variant.2 ⟨"s3", "get-item", ""⟩ none none).1,
   (exit_status_by_variant.2 ⟨"s3", "get-item", ""⟩ none none).2
     (Or.inl (by decide))⟩

/-- C2 (corrected, counterexample): the `TryDax` variant's `validate`
accepts the dax service combined with `create-table` (given a nonempty
endpoint), so it does not reject all four bad inputs. -/
theorem tryDax_validate_accepts_dax_table_command :
    validateTryDax ⟨"dax", "create-table", "an-endpoint"⟩ = none := by decide

/-- C2 (amended): both `validate` functions reject an unknown service, an
unknown command, and dax with an empty endpoint; the `Part000` variant
additionally rejects dax with a table-management command; all messages are
fixed strings and pairwise distinct within each variant. -/
theorem validate_four_rejections :
    (∀ cfg : Config, contains cfg.service services = false →
      validatePart000 cfg = some msgService ∧
      validateTryDax cfg = some msgService) ∧
    (∀ cfg : Config, contains cfg.service services = true →
      contains cfg.command commands = false →
      validatePart000 cfg = some msgCommandPart000) ∧
    (∀ cfg : Config, contains cfg.service services = true →
      commandMap.lookup cfg.command = none →
      validateTryDax cfg = some msgCommandTryDax) ∧
    (∀ cfg : Config, cfg.service = "dax" →
      contains cfg.command commands = true →
      cfg.endpoint.length = 0 → validatePart000 cfg = some msgEndpoint) ∧
    (∀ cfg : Config, cfg.service = "dax" →
      (commandMap.lookup cfg.command).isSome = true →
      cfg.endpoint.length = 0 → validateTryDax cfg = some msgEndpoint) ∧
    (∀ cfg : Config, cfg.service = "dax" →
      (cfg.command = "create-table" ∨ cfg.command = "delete-table") →
      cfg.endpoint.length ≠ 0 → validatePart000 cfg = some msgTableOps) ∧
    (msgService ≠ msgCommandPart000 ∧ msgService ≠ msgEndpoint ∧
     msgService ≠ msgTableOps ∧ msgCommandPart000 ≠ msgEndpoint ∧
     msgCommandPart000 ≠ msgTableOps ∧ msgEndpoint ≠ msgTableOps ∧
     msgService ≠ msgCommandTryDax ∧ msgCommandTryDax ≠ msgEndpoint) := by
  refine ⟨?_, ?_, ?_, ?_, ?_, ?_, by decide⟩
  · intro cfg hs
    exact ⟨validatePart000_bad_service cfg hs, validateTryDax_bad_service cfg hs⟩
  · intro cfg hs hc
    exact validatePart000_bad_command cfg hs hc
  · intro cfg hs hc
    exact validateTryDax_bad_command cfg hs hc
  · intro cfg hs hc he
    exact validatePart000_dax_no_endpoint cfg hs hc he
  · intro cfg hs hc he
    exact validateTryDax_dax_no_endpoint cfg hs hc he
  · intro cfg hs hc he
    exact validatePart000_dax_table_command cfg hs hc he

/-- C2 witness: concrete rejections in both variants. -/
theorem validate_four_rejections_witness :
    (validatePart000 ⟨"s3", "get-item", ""⟩ = some msgService ∧
     validateTryDax ⟨"s3", "get-item", ""⟩ = some msgService) ∧
    validatePart000 ⟨"dax", "create-table", "e"⟩ = some msgTableOps :=
  ⟨validate_four_rejections.1 ⟨"s3", "get-item", ""⟩ (by decide),
   validate_four_rejections.2.2.2.2.2.1 ⟨"dax", "create-table", "e"⟩ rfl
     (Or.inl rfl) (by decide)⟩

/-- C9: whenever the `TryDax` variant's `validate` returns nil, the parsed
command is a key of `commandMap`, so the dispatch `commandMap[*command]()`
never invokes a nil function value. -/
theorem tryDax_dispatch_command_known (cfg : Config)
    (h : validateTryDax cfg = none) :
    (commandMap.lookup cfg.command).isSome = true := by
  cases hs : contains cfg.service services with
  | false => rw [validateTryDax_bad_service cfg hs] at h; cases h
  | true =>
    cases hc : commandMap.lookup cfg.command with
    | none => rw [validateTryDax_bad_command cfg hs hc] at h; cases h
    | some c => rfl

/-- C9 witness: a concrete validated configuration has a dispatchable
command. -/
theorem tryDax_dispatch_command_known_witness :
    (commandMap.lookup "scan").isSome = true :=
  tryDax_dispatch_command_known ⟨"dynamodb", "scan", ""⟩ (by decide)

/-- Every element of `executeQuery`'s request sequence is the fixed query
request. -/
lemma mem_queryInputs (r : QueryInput) (hr : r ∈ queryInputs) :
    r = queryInput := by
  rw [queryInputs] at hr
  obtain ⟨a, -, ha⟩ := List.mem_map.mp hr
  exact ha.symm

/-- Whatever the client answers, the `TryDax` create-table executor only ever
issues the one fixed request. -/
lemma mem_executeCreateTableTryDax_trace (service : String)
    (ddbErr : Option String) (clientT : CreateTableInput → Except String Unit)
    (r : CreateTableInput)
    (hr : r ∈ (executeCreateTableTryDax service ddbErr clientT).1) :
    r = createTableInput := by
  cases hI : initTableClient service ddbErr with
  | error e => simp [executeCreateTableTryDax, hI] at hr
  | ok u =>
    simp only [executeCreateTableTryDax, hI] at hr
    exact mem_executeCreateTable_trace clientT r hr

/-- C3: for each of the four loop executors, a client whose `n`-th call is
the first to fail makes the executor issue exactly the first `n` requests of
its fixed sequence (no retries, nothing beyond the failure) and return that
`n`-th error, provided `n` is within the loop's total call count (100 for
put-item, 2500 for get-item, 25 for query and scan). -/
theorem executor_aborts_on_nth_error {ε : Type} (e : ε) (n : Nat)
    (cp : Nat → PutItemInput → Except ε Unit)
    (cg : Nat → GetItemInput → Except ε Unit)
    (cq : Nat → QueryInput → Except ε Unit)
    (cs : Nat → ScanInput → Except ε Unit)
    (hn : 1 ≤ n)
    (hpok : ∀ k x, k + 1 < n → cp k x = Except.ok ())
    (hperr : ∀ x, cp (n - 1) x = Except.error e)
    (hgok : ∀ k x, k + 1 < n → cg k x = Except.ok ())
    (hgerr : ∀ x, cg (n - 1) x = Except.error e)
    (hqok : ∀ k x, k + 1 < n → cq k x = Except.ok ())
    (hqerr : ∀ x, cq (n - 1) x = Except.error e)
    (hsok : ∀ k x, k + 1 < n → cs k x = Except.ok ())
    (hserr : ∀ x, cs (n - 1) x = Except.error e) :
    (n ≤ 100 →
      (executePutItem cp).1 = putItemInputs.take n ∧
      (executePutItem cp).1.length = n ∧
      (executePutItem cp).2 = Except.error e) ∧
    (n ≤ 2500 →
      (executeGetItem cg).1 = getItemInputs.take n ∧
      (executeGetItem cg).1.length = n ∧
      (executeGetItem cg).2 = Except.error e) ∧
    (n ≤ 25 →
      (executeQuery cq).1 = queryInputs.take n ∧
      (executeQuery cq).1.length = n ∧
      (executeQuery cq).2 = Except.error e) ∧
    (n ≤ 25 →
      (executeScan cs).1 = scanInputs.take n ∧
      (executeScan cs).1.length = n ∧
      (executeScan cs).2 = Except.error e) := by
  refine ⟨?_, ?_, ?_, ?_⟩
  · intro hle
    have h := runLoop_first_error cp e n hpok hperr putItemInputs 0 (by omega)
      (by rw [putItemInputs_length]; omega)
    have h' : executePutItem cp = (putItemInputs.take n, Except.error e) := by
      unfold executePutItem
      rw [h, Nat.sub_zero]
    rw [h']
    refine ⟨rfl, ?_, rfl⟩
    simp [List.length_take, putItemInputs_length]
    omega
  · intro hle
    have h := runLoop_first_error cg e n hgok hgerr getItemInputs 0 (by omega)
      (by rw [getItemInputs_length]; omega)
    have h' : executeGetItem cg = (getItemInputs.take n, Except.error e) := by
      unfold executeGetItem
      rw [h, Nat.sub_zero]
    rw [h']
    refine ⟨rfl, ?_, rfl⟩
    simp [List.length_take, getItemInputs_length]
    omega
  · intro hle
    have h := runLoop_first_error cq e n hqok hqerr queryInputs 0 (by omega)
      (by rw [queryInputs_length]; omega)
    have h' : executeQuery cq = (queryInputs.take n, Except.error e) := by
      unfold executeQuery
      rw [h, Nat.sub_zero]
    rw [h']
    refine ⟨rfl, ?_, rfl⟩
    simp [List.length_take, queryInputs_length]
    omega
  · intro hle
    have h := runLoop_first_error cs e n hsok hserr scanInputs 0 (by omega)
      (by rw [scanInputs_length]; omega)
    have h' : executeScan cs = (scanInputs.take n, Except.error e) := by
      unfold executeScan
      rw [h, Nat.sub_zero]
    rw [h']
    refine ⟨rfl, ?_, rfl⟩
    simp [List.length_take, scanInputs_length]
    omega

/-- C3 witness: with a backend failing the 7th call, each executor issues
exactly 7 calls and surfaces the error. -/
theorem executor_aborts_on_nth_error_witness :
    ((executePutItem (fun k (_ : PutItemInput) =>
        if k + 1 = 7 then Except.error "boom" else Except.ok ())).1.length = 7 ∧
     (executePutItem (fun k (_ : PutItemInput) =>
        if k + 1 = 7 then Except.error "boom" else Except.ok ())).2 =
       Except.error "boom") ∧
    ((executeGetItem (fun k (_ : GetItemInput) =>
        if k + 1 = 7 then Except.error "boom" else Except.ok ())).1.length = 7 ∧
     (executeGetItem (fun k (_ : GetItemInput) =>
        if k + 1 = 7 then Except.error "boom" else Except.ok ())).2 =
       Except.error "boom") ∧
    ((executeQuery (fun k (_ : QueryInput) =>
        if k + 1 = 7 then Except.error "boom" else Except.ok ())).1.length = 7 ∧
     (executeQuery (fun k (_ : QueryInput) =>
        if k + 1 = 7 then Except.error "boom" else Except.ok ())).2 =
       Except.error "boom") ∧
    ((executeScan (fun k (_ : ScanInput) =>
        if k + 1 = 7 then Except.error "boom" else Except.ok ())).1.length = 7 ∧
     (executeScan (fun k (_ : ScanInput) =>
        if k + 1 = 7 then Except.error "boom" else Except.ok ())).2 =
       Except.error "boom") := by
  have main := executor_aborts_on_nth_error "boom" 7
    (fun k (_ : PutItemInput) =>
      if k + 1 = 7 then Except.error "boom" else Except.ok ())
    (fun k (_ : GetItemInput) =>
      if k + 1 = 7 then Except.error "boom" else Except.ok ())
    (fun k (_ : QueryInput) =>
      if k + 1 = 7 then Except.error "boom" else Except.ok ())
    (fun k (_ : ScanInput) =>
      if k + 1 = 7 then Except.error "boom" else Except.ok ())
    (by omega)
    (fun k x h => if_neg (by omega)) (fun x => rfl)
    (fun k x h => if_neg (by omega)) (fun x => rfl)
    (fun k x h => if_neg (by omega)) (fun x => rfl)
    (fun k x h => if_neg (by omega)) (fun x => rfl)
  have hp := main.1 (by omega)
  have hg := main.2.1 (by omega)
  have hq := main.2.2.1 (by omega)
  have hs := main.2.2.2 (by omega)
  exact ⟨⟨hp.2.1, hp.2.2⟩, ⟨hg.2.1, hg.2.2⟩, ⟨hq.2.1, hq.2.2⟩,
    ⟨hs.2.1, hs.2.2⟩⟩

/-- C4: on an always-succeeding client, the put-item executor issues exactly
100 requests, the `(10*i + j)`-th carrying partition key `key_<i>`, sort key
`<j>` and value `val_<i>_<j>` against the fixed table name, and succeeds. -/
theorem putItem_issues_full_grid {ε : Type}
    (client : Nat → PutItemInput → Except ε Unit)
    (h : ∀ k x, client k x = Except.ok ()) :
    (executePutItem client).1.length = 100 ∧
    (∀ i, i < 10 → ∀ j, j < 10 →
      (executePutItem client).1.get? (10 * i + j) = some
        { tableName := "TryDaxGoTable",
          item := [("pk", { S := some ("key_" ++ toString i) }),
                   ("sk", { N := some (toString j) }),
                   ("value",
                    { S := some ("val_" ++ toString i ++ "_" ++ toString j) })] }) ∧
    (executePutItem client).2 = Except.ok () := by
  have h0 : executePutItem client = (putItemInputs, Except.ok ()) :=
    runLoop_all_ok client h putItemInputs 0
  have hgrid : ∀ i, i < 10 → ∀ j, j < 10 →
      putItemInputs.get? (10 * i + j) = some
        { tableName := "TryDaxGoTable",
          item := [("pk", { S := some ("key_" ++ toString i) }),
                   ("sk", { N := some (toString j) }),
                   ("value",
                    { S := some ("val_" ++ toString i ++ "_" ++ toString j) })] } := by
    decide
  refine ⟨?_, ?_, ?_⟩
  · rw [h0]
    exact putItemInputs_length
  · intro i hi j hj
    rw [h0]
    exact hgrid i hi j hj
  · rw [h0]

/-- C4 witness: the always-succeeding client concretely. -/
theorem putItem_issues_full_grid_witness :
    (executePutItem (fun _ (_ : PutItemInput) =>
      (Except.ok () : Except String Unit))).1.length = 100 ∧
    (executePutItem (fun _ (_ : PutItemInput) =>
      (Except.ok () : Except String Unit))).1.get? 37 = some
        { tableName := "TryDaxGoTable",
          item := [("pk", { S := some ("key_" ++ toString 3) }),
                   ("sk", { N := some (toString 7) }),
                   ("value",
                    { S := some ("val_" ++ toString 3 ++ "_" ++ toString 7) })] } ∧
    (executePutItem (fun _ (_ : PutItemInput) =>
      (Except.ok () : Except String Unit))).2 = Except.ok () := by
  have main := putItem_issues_full_grid
    (fun _ (_ : PutItemInput) => (Except.ok () : Except String Unit))
    (fun _ _ => rfl)
  exact ⟨main.1, main.2.1 3 (by omega) 7 (by omega), main.2.2⟩

/-- C5: on an always-succeeding client, the get-item executor issues exactly
2500 requests — the 100-key grid repeated 25 times — succeeds, and the
reported average is the (non-negative) elapsed duration divided by 25. -/
theorem getItem_request_count_and_average {ε : Type}
    (client : Nat → GetItemInput → Except ε Unit)
    (h : ∀ k x, client k x = Except.ok ()) :
    (executeGetItem client).1.length = 2500 ∧
    (executeGetItem client).1 =
      (List.replicate 25 ((List.range pkMax).flatMap fun i =>
        (List.range skMax).map fun j =>
          ({ tableName := table, key := getKey i j } : GetItemInput))).flatten ∧
    (executeGetItem client).2 = Except.ok () ∧
    (∀ d : Int, 0 ≤ d → avgTime d = d / 25 ∧ 0 ≤ avgTime d) := by
  have h0 : executeGetItem client = (getItemInputs, Except.ok ()) :=
    runLoop_all_ok client h getItemInputs 0
  rw [h0]
  refine ⟨getItemInputs_length, getItemInputs_replicate, rfl, ?_⟩
  intro d hd
  exact ⟨rfl, Int.ediv_nonneg hd (by norm_num)⟩

/-- C5 witness: the always-succeeding client concretely, with a concrete
elapsed duration. -/
theorem getItem_request_count_and_average_witness :
    (executeGetItem (fun _ (_ : GetItemInput) =>
      (Except.ok () : Except String Unit))).1.length = 2500 ∧
    (avgTime 1000 = 1000 / 25 ∧ 0 ≤ avgTime 1000) := by
  have main := getItem_request_count_and_average
    (fun _ (_ : GetItemInput) => (Except.ok () : Except String Unit))
    (fun _ _ => rfl)
  exact ⟨main.1, main.2.2.2 1000 (by norm_num)⟩

/-- C6: on an always-succeeding client, the query executor issues exactly 25
requests, every one with partition-key value `key_5` and sort-key range
bounds `2` and `9`, and succeeds. -/
theorem query_fixed_requests {ε : Type}
    (client : Nat → QueryInput → Except ε Unit)
    (h : ∀ k x, client k x = Except.ok ()) :
    (executeQuery client).1.length = 25 ∧
    (∀ r ∈ (executeQuery client).1,
      r.keyConditionExpression =
        "pk = :pkval and sk between :skval1 and :skval2" ∧
      r.expressionAttributeValues =
        [(":pkval", { S := some "key_5" }),
         (":skval1", { N := some "2" }),
         (":skval2", { N := some "9" })]) ∧
    (executeQuery client).2 = Except.ok () := by
  have h0 : executeQuery client = (queryInputs, Except.ok ()) :=
    runLoop_all_ok client h queryInputs 0
  rw [h0]
  refine ⟨queryInputs_length, ?_, rfl⟩
  intro r hr
  rw [mem_queryInputs r hr]
  exact queryInput_fields

/-- C6 witness: the always-succeeding client concretely. -/
theorem query_fixed_requests_witness :
    (executeQuery (fun _ (_ : QueryInput) =>
      (Except.ok () : Except String Unit))).1.length = 25 ∧
    queryInput.expressionAttributeValues =
      [(":pkval", { S := some "key_5" }),
       (":skval1", { N := some "2" }),
       (":skval2", { N := some "9" })] := by
  have main := query_fixed_requests
    (fun _ (_ : QueryInput) => (Except.ok () : Except String Unit))
    (fun _ _ => rfl)
  exact ⟨main.1, (main.2.1 queryInput (by decide)).2⟩

/-- C7: every table-creation request built by the create-table executor, in
either variant and against any client, specifies hash key `pk` of string
type, range key `sk` of numeric type, and 100 read / 100 write provisioned
capacity units. -/
theorem createTable_request_schema {ε : Type}
    (client : CreateTableInput → Except ε Unit) (service : String)
    (ddbErr : Option String) (clientT : CreateTableInput → Except String Unit) :
    (∀ r ∈ (executeCreateTable client).1,
      r.keySchema = [("pk", "HASH"), ("sk", "RANGE")] ∧
      r.attributeDefinitions = [("pk", "S"), ("sk", "N")] ∧
      r.readCapacityUnits = 100 ∧ r.writeCapacityUnits = 100) ∧
    (∀ r ∈ (executeCreateTableTryDax service ddbErr clientT).1,
      r.keySchema = [("pk", "HASH"), ("sk", "RANGE")] ∧
      r.attributeDefinitions = [("pk", "S"), ("sk", "N")] ∧
      r.readCapacityUnits = 100 ∧ r.writeCapacityUnits = 100) := by
  constructor
  · intro r hr
    rw [mem_executeCreateTable_trace client r hr]
    exact createTableInput_fields
  · intro r hr
    rw [mem_executeCreateTableTryDax_trace service ddbErr clientT r hr]
    exact createTableInput_fields

/-- C7 witness: the fixed request of a concrete run carries the schema. -/
theorem createTable_request_schema_witness :
    createTableInput.keySchema = [("pk", "HASH"), ("sk", "RANGE")] ∧
    createTableInput.attributeDefinitions = [("pk", "S"), ("sk", "N")] ∧
    createTableInput.readCapacityUnits = 100 ∧
    createTableInput.writeCapacityUnits = 100 :=
  (createTable_request_schema
    (fun _ => (Except.ok () : Except String Unit)) "dynamodb" none
    (fun _ => Except.ok ())).1 createTableInput (by decide)

/-- C8 (corrected, counterexample): the `TryDax` client factory does reject
the dax service at construction, but its error message is
`for table operations use service 'dynamodb'`, not the claimed
`table operations unsupported on this backend`. -/
theorem initTableClient_dax_message :
    initTableClient "dax" none =
      Except.error "for table operations use service 'dynamodb'" ∧
    "for table operations use service 'dynamodb'" ≠
      "table operations unsupported on this backend" := by
  constructor
  · rfl
  · decide

/-- C8 (amended): in the `TryDax` variant, requesting the table-management
capability with service dax fails at client construction with the error
`for table operations use service 'dynamodb'` and no table operation is
issued; a dynamodb table client is constructed; in the `Part000` variant the
dax service combined with a table-management command is rejected at
validation instead. -/
theorem dax_table_capability_rejected :
    (∀ (ddbErr : Option String) (client : CreateTableInput → Except String Unit),
      executeCreateTableTryDax "dax" ddbErr client =
        ([], Except.error "for table operations use service 'dynamodb'")) ∧
    initTableClient "dynamodb" none = Except.ok () ∧
    (∀ cfg : Config, cfg.service = "dax" →
      (cfg.command = "create-table" ∨ cfg.command = "delete-table") →
      cfg.endpoint.length ≠ 0 → validatePart000 cfg = some msgTableOps) := by
  refine ⟨?_, rfl, ?_⟩
  · intro ddbErr client
    rfl
  · intro cfg hs hc he
    exact validatePart000_dax_table_command cfg hs hc he

/-- C8 witness: a concrete dax run issues no table operation and surfaces
the construction error; a concrete `Part000` configuration is rejected at
validation. -/
theorem dax_table_capability_rejected_witness :
    executeCreateTableTryDax "dax" none (fun _ => Except.ok ()) =
      ([], Except.error "for table operations use service 'dynamodb'") ∧
    validatePart000 ⟨"dax", "delete-table", "e"⟩ = some msgTableOps :=
  ⟨dax_table_capability_rejected.1 none (fun _ => Except.ok ()),
   dax_table_capability_rejected.2.2 ⟨"dax", "delete-table", "e"⟩ rfl
     (Or.inr rfl) (by decide)⟩

end DaxSample
